import Mathlib

/-!
Verification development for the `limesurveyrc2api` survey-API client.

The Lean definitions below are a shallow embedding of the Python sources
`limesurveyrc2api/_survey.py` and `limesurveyrc2api/_utils.py`:

* JSON/Python values returned by the transport are modelled by `PyVal`.
* Every RPC wrapper method in `_Survey` performs the same response
  classification: if the response is a dict containing a `"status"` key, the
  status is compared (in order) against an optional empty-result sentinel and
  the method's literal `error_messages` list, raising `LimeSurveyError` on a
  match and otherwise falling through to `return response`; if the response is
  not a dict with a `"status"` key, the method asserts the expected success
  type.  `handleResponse` embeds this shared control flow once, and each
  method is an instantiation with the literal data from its body (method name,
  sentinel, error list — including strings produced by Python implicit string
  concatenation where the source lists are missing commas — and asserted
  success type).
* The ID generator, the XML question-document builder, the base64 codec used
  by `encodestring`/`decodestring`, and a model of `json.loads` are embedded
  as executable functions.
-/

/-- Model of the dynamically typed JSON/Python values the transport returns
and the values stored in parameter dictionaries. -/
inductive PyVal where
  | none
  | bool (b : Bool)
  | int (n : Int)
  | str (s : String)
  | list (xs : List PyVal)
  | dict (entries : List (String × PyVal))

/-- Dictionary key lookup (`response["status"]`): first entry with the key. -/
def lookupEntry (entries : List (String × PyVal)) (key : String) : Option PyVal :=
  (entries.find? (fun e => e.1 == key)).map (fun e => e.2)

/-- Python `==` between a response value and a string literal: only equal
strings compare equal, values of any other type compare unequal. -/
def pyEqStr (v : PyVal) (s : String) : Bool :=
  match v with
  | PyVal.str t => t == s
  | _ => false

/-- Python `str()` of the values that occur in a question document
(`None`, ints and strings; the remaining cases are unused by the source). -/
def pyStr : PyVal → String
  | PyVal.none => "None"
  | PyVal.bool b => if b then "True" else "False"
  | PyVal.int n => toString n
  | PyVal.str s => s
  | PyVal.list _ => ""
  | PyVal.dict _ => ""

/-- Outcome of one `_Survey` method's response classification:
a returned value, a raised `LimeSurveyError method status`, or a failed
`assert` on the expected success type. -/
inductive OpOutcome where
  | ret (v : PyVal)
  | raiseLime (method : String) (status : String)
  | assertFail

/-- Embedding of the loop
`for message in error_messages: if status == message: raise LimeSurveyError(method, status)`
followed by the fall-through continuation `next`. -/
def raiseOnMatch (method : String) (msgs : List String) (status : PyVal)
    (next : OpOutcome) : OpOutcome :=
  match msgs with
  | [] => next
  | m :: rest =>
      if pyEqStr status m then OpOutcome.raiseLime method m
      else raiseOnMatch method rest status next

/-- The success type named in a method's `assert response_type is ...`. -/
inductive PyType where
  | list
  | int
  | str
  | dict

/-- Python `type(response) is T`. -/
def typeIs : PyType → PyVal → Bool
  | PyType.list, PyVal.list _ => true
  | PyType.int, PyVal.int _ => true
  | PyType.str, PyVal.str _ => true
  | PyType.dict, PyVal.dict _ => true
  | _, _ => false

/-- The response-classification skeleton shared verbatim by every `_Survey`
method: a dict carrying `"status"` is checked against the optional
empty-result sentinel and then the declared `error_messages` (raising on the
first match, otherwise returning the dict unchanged); any other response is
asserted to have the declared success type and returned. -/
def handleResponse (method : String) (empty_status : Option String)
    (error_messages : List String) (success_type : PyType)
    (response : PyVal) : OpOutcome :=
  match response with
  | PyVal.dict entries =>
      match lookupEntry entries "status" with
      | some status =>
          match empty_status with
          | some sentinel =>
              if pyEqStr status sentinel then OpOutcome.ret (PyVal.list [])
              else raiseOnMatch method error_messages status
                     (OpOutcome.ret (PyVal.dict entries))
          | Option.none =>
              raiseOnMatch method error_messages status
                (OpOutcome.ret (PyVal.dict entries))
      | Option.none =>
          if typeIs success_type (PyVal.dict entries) then
            OpOutcome.ret (PyVal.dict entries)
          else OpOutcome.assertFail
  | other =>
      if typeIs success_type other then OpOutcome.ret other
      else OpOutcome.assertFail

/-- `error_messages` of `list_surveys`. -/
def list_surveys_error_messages : List String :=
  ["Invalid user", "Invalid session key"]

/-- `error_messages` of `list_questions`. -/
def list_questions_error_messages : List String :=
  ["Error: Invalid survey ID", "Error: Invalid language",
   "Error: IMissmatch in surveyid and groupid", "No permission",
   "Invalid session key"]

/-- `error_messages` of `add_survey`; the first two source literals have no
comma between them, so Python concatenates them into one string. -/
def add_survey_error_messages : List String :=
  ["Creation Failed resultFaulty parameters", "No permission",
   "Invalid session key"]

/-- `error_messages` of `delete_survey`. -/
def delete_survey_error_messages : List String :=
  ["No permission", "Invalid session key"]

/-- `error_messages` of `add_question` (method name `import_question`). -/
def add_question_error_messages : List String :=
  ["Error: ...", "Invalid extension", "No permission", "Invalid session key"]

/-- `error_messages` of `delete_question`. -/
def delete_question_error_messages : List String :=
  ["No permission", "Invalid session key"]

/-- `error_messages` of `import_survey`. -/
def import_survey_error_messages : List String :=
  ["Error: ...", "Invalid extension", "No permission", "Invalid session key"]

/-- `error_messages` of `activate_survey`. -/
def activate_survey_error_messages : List String :=
  ["Error: Invalid survey ID", "Error: Activation Error", "Error: ...",
   "No permission", "Invalid session key"]

/-- `error_messages` of `activate_tokens`. -/
def activate_tokens_error_messages : List String :=
  ["Error: Invalid survey ID",
   "Survey participants table could not be created", "No permission",
   "Invalid session key"]

/-- `error_messages` of `list_groups`; the last two source literals have no
comma between them, so Python concatenates them into one string. -/
def list_groups_error_messages : List String :=
  ["Error: Invalid survey ID", "No permissionInvalid S ession key"]

/-- `error_messages` of `add_group`; the first two source literals have no
comma between them, so Python concatenates them into one string. -/
def add_group_error_messages : List String :=
  ["Creation Failed resultFaulty parameters", "No permission",
   "Invalid session key"]

/-- `error_messages` of `get_survey_properties`. -/
def get_survey_properties_error_messages : List String :=
  ["No valid Data", "Invalid survey ID", "No permission",
   "Invalid session key"]

/-- `error_messages` of `set_survey_properties`; the first two source
literals have no comma between them, so Python concatenates them. -/
def set_survey_properties_error_messages : List String :=
  ["Invalid survey IDNo valid Data", "No permission", "Invalid session key"]

/-- `error_messages` of `add_response`; the first two source literals have no
comma between them, so Python concatenates them. -/
def add_response_error_messages : List String :=
  ["Invalid survey IDNo permission", "Invalid session key"]

/-- Response classification of `_Survey.list_surveys`. -/
def list_surveys_handle (response : PyVal) : OpOutcome :=
  handleResponse "list_surveys" (some "No surveys found")
    list_surveys_error_messages PyType.list response

/-- Response classification of `_Survey.list_questions`. -/
def list_questions_handle (response : PyVal) : OpOutcome :=
  handleResponse "list_questions" (some "No questions found")
    list_questions_error_messages PyType.list response

/-- Response classification of `_Survey.add_survey`. -/
def add_survey_handle (response : PyVal) : OpOutcome :=
  handleResponse "add_survey" Option.none add_survey_error_messages
    PyType.int response

/-- Response classification of `_Survey.delete_survey`. -/
def delete_survey_handle (response : PyVal) : OpOutcome :=
  handleResponse "delete_survey" Option.none delete_survey_error_messages
    PyType.list response

/-- Response classification of `_Survey.add_question`
(RPC method name `import_question`). -/
def add_question_handle (response : PyVal) : OpOutcome :=
  handleResponse "import_question" Option.none add_question_error_messages
    PyType.int response

/-- Response classification of `_Survey.delete_question`. -/
def delete_question_handle (response : PyVal) : OpOutcome :=
  handleResponse "delete_question" Option.none delete_question_error_messages
    PyType.int response

/-- Response classification of `_Survey.import_survey`. -/
def import_survey_handle (response : PyVal) : OpOutcome :=
  handleResponse "import_survey" Option.none import_survey_error_messages
    PyType.int response

/-- Response classification of `_Survey.activate_survey`. -/
def activate_survey_handle (response : PyVal) : OpOutcome :=
  handleResponse "activate_survey" Option.none activate_survey_error_messages
    PyType.list response

/-- Response classification of `_Survey.activate_tokens`. -/
def activate_tokens_handle (response : PyVal) : OpOutcome :=
  handleResponse "activate_tokens" Option.none activate_tokens_error_messages
    PyType.list response

/-- Response classification of `_Survey.list_groups`. -/
def list_groups_handle (response : PyVal) : OpOutcome :=
  handleResponse "list_groups" (some "No groups found")
    list_groups_error_messages PyType.list response

/-- Response classification of `_Survey.add_group`. -/
def add_group_handle (response : PyVal) : OpOutcome :=
  handleResponse "add_group" Option.none add_group_error_messages
    PyType.int response

/-- Response classification of `_Survey.get_survey_properties`. -/
def get_survey_properties_handle (response : PyVal) : OpOutcome :=
  handleResponse "get_survey_properties" Option.none
    get_survey_properties_error_messages PyType.dict response

/-- Response classification of `_Survey.set_survey_properties`. -/
def set_survey_properties_handle (response : PyVal) : OpOutcome :=
  handleResponse "set_survey_properties" Option.none
    set_survey_properties_error_messages PyType.dict response

/-- Response classification of `_Survey.add_response`. -/
def add_response_handle (response : PyVal) : OpOutcome :=
  handleResponse "add_response" Option.none add_response_error_messages
    PyType.int response

/-- Parameter dictionary built by `_Survey.add_survey`:
`iSurveyID` is `int(survey_id) if survey_id else 1` (so `None` and `0` both
fall back to `1`), `sSurveyLanguage` is `language or "en"`, and the
(misspelled) `sForamt` key is `format_ or "G"`. -/
def add_survey_params (session_key : String) (title : String)
    (survey_id : Option Int) (language : Option String)
    (format_ : Option String) : List (String × PyVal) :=
  [("sSessionKey", PyVal.str session_key),
   ("iSurveyID", PyVal.int (match survey_id with
     | some n => if n = 0 then 1 else n
     | Option.none => 1)),
   ("sSurveyTitle", PyVal.str title),
   ("sSurveyLanguage", PyVal.str (match language with
     | some l => if l = "" then "en" else l
     | Option.none => "en")),
   ("sForamt", PyVal.str (match format_ with
     | some f => if f = "" then "G" else f
     | Option.none => "G"))]

/-- The 36-character alphabet of `IDGenerator` (lowercase letters, digits). -/
def ALPHABET : List Char := "abcdefghijklmnopqrstuvwxyz0123456789".data

/-- `self.ALPHABET[r]`; the index is always a remainder `< 36`. -/
def alphaChar (r : Nat) : Char := ALPHABET.getD r ' '

/-- Embedding of `IDGenerator._encode_int`: repeated `divmod` by the alphabet
length 36, most-significant digit first. -/
def encodeInt (n : Nat) : List Char :=
  if h : n = 0 then []
  else encodeInt (n / 36) ++ [alphaChar (n % 36)]
termination_by n
decreasing_by exact Nat.div_lt_self (Nat.pos_of_ne_zero h) (by omega)

/-- Embedding of `IDGenerator.generate_id`, with the value `r` drawn by
`random.randint(start, end)` passed in explicitly (the generator itself is
the only source of randomness; theorems constrain `r` to the drawn range
`[36^(length-1), 36^length - 1]`). -/
def generate_id (r : Nat) : String := String.mk (encodeInt r)

/-- The base64 alphabet used by Python's `base64` module. -/
def B64CHARS : List Char :=
  "ABCDEFGHIJKLMNOPQRSTUVWXYZabcdefghijklmnopqrstuvwxyz0123456789+/".data

/-- Base64 digit for a 6-bit value. -/
def b64Char (v : Nat) : Char := B64CHARS.getD v '?'

/-- Index of a character in the base64 alphabet (its 6-bit value). -/
def b64DecodeIdx (c : Char) : Nat := B64CHARS.indexOf c

/-- Whether a character is a base64 alphabet character (newlines and the
padding character are not; `a2b_base64` skips them). -/
def inB64 (c : Char) : Bool := B64CHARS.contains c

/-- Core base64 encoding: bytes are consumed three at a time and emitted as
four 6-bit digits; a trailing group of one or two bytes is padded with
`'='`. -/
def b64EncodeChunks : List Nat → List Char
  | a :: b :: c :: rest =>
      b64Char (a / 4) :: b64Char (a % 4 * 16 + b / 16) ::
      b64Char (b % 16 * 4 + c / 64) :: b64Char (c % 64) ::
      b64EncodeChunks rest
  | [a, b] =>
      [b64Char (a / 4), b64Char (a % 4 * 16 + b / 16), b64Char (b % 16 * 4), '=']
  | [a] => [b64Char (a / 4), b64Char (a % 4 * 16), '=', '=']
  | [] => []

/-- Line splitting performed by `base64.encodestring`/`encodebytes`: the
encoded stream is emitted in lines of at most 76 characters, each terminated
by a newline (empty input produces empty output). -/
def splitNL (cs : List Char) : List Char :=
  match cs with
  | [] => []
  | c :: rest => ((c :: rest).take 76) ++ '\n' :: splitNL ((c :: rest).drop 76)
termination_by cs.length
decreasing_by simp [List.length_drop]; omega

/-- Embedding of `base64.encodestring` on a byte list: chunked base64
encoding followed by 76-column line splitting. -/
def encodestring (bytes : List Nat) : List Char :=
  splitNL (b64EncodeChunks bytes)

/-- Core base64 decoding on a stream of alphabet characters (padding and
newlines already removed): groups of four 6-bit digits yield three bytes, a
trailing group of three digits yields two bytes and a trailing group of two
digits yields one byte, exactly as `binascii.a2b_base64` does on well-formed
input. -/
def b64DecodeQuads : List Char → List Nat
  | c1 :: c2 :: c3 :: c4 :: rest =>
      (b64DecodeIdx c1 * 4 + b64DecodeIdx c2 / 16) ::
      (b64DecodeIdx c2 % 16 * 16 + b64DecodeIdx c3 / 4) ::
      (b64DecodeIdx c3 % 4 * 64 + b64DecodeIdx c4) ::
      b64DecodeQuads rest
  | [c1, c2, c3] =>
      [b64DecodeIdx c1 * 4 + b64DecodeIdx c2 / 16,
       b64DecodeIdx c2 % 16 * 16 + b64DecodeIdx c3 / 4]
  | [c1, c2] => [b64DecodeIdx c1 * 4 + b64DecodeIdx c2 / 16]
  | _ => []

/-- Embedding of `base64.decodestring` on the characters of the input text:
characters outside the base64 alphabet (newlines, padding) are skipped and
the remaining digits are decoded in groups. -/
def decodestring (cs : List Char) : List Nat :=
  b64DecodeQuads (cs.filter inB64)

/-- UTF-8 encoding of one character (the standard 1–4 byte scheme used by
Python's `str.encode("utf-8")`). -/
def utf8EncodeChar (c : Char) : List Nat :=
  if c.toNat < 128 then [c.toNat]
  else if c.toNat < 2048 then [192 + c.toNat / 64, 128 + c.toNat % 64]
  else if c.toNat < 65536 then
    [224 + c.toNat / 4096, 128 + c.toNat / 64 % 64, 128 + c.toNat % 64]
  else
    [240 + c.toNat / 262144, 128 + c.toNat / 4096 % 64, 128 + c.toNat / 64 % 64,
     128 + c.toNat % 64]

/-- UTF-8 encoding of a character sequence (`str.encode("utf-8")`). -/
def utf8Encode : List Char → List Nat
  | [] => []
  | c :: cs => utf8EncodeChar c ++ utf8Encode cs

/-- Modelled from the spec: the UTF-8 decoding step performed inside Python's
`json.loads` when it is handed bytes, restricted to the ASCII range (the
documents exercised here are ASCII). -/
def asciiDecode : List Nat → Option (List Char)
  | [] => some []
  | b :: rest =>
      if b < 128 then (asciiDecode rest).map (fun cs => Char.ofNat b :: cs)
      else Option.none

/-- JSON values produced by the `json.loads` model. -/
inductive Json where
  | null
  | bool (b : Bool)
  | num (n : Int)
  | str (s : String)
  | arr (elems : List Json)
  | obj (members : List (String × Json))

/-- The opening-brace character of a JSON object. -/
def lbraceChar : Char := Char.ofNat 123

/-- The closing-brace character of a JSON object. -/
def rbraceChar : Char := Char.ofNat 125

/-- JSON insignificant whitespace. -/
def isWsChar (c : Char) : Bool :=
  c == ' ' || c == '\t' || c == '\n' || c == '\r'

/-- Skip leading JSON whitespace. -/
def skipWs : List Char → List Char
  | [] => []
  | c :: cs => if isWsChar c then skipWs cs else c :: cs

/-- JSON string escape sequences (the common single-character ones). -/
def parseEscape (c : Char) : Option Char :=
  if c = '"' then some '"'
  else if c = '\\' then some '\\'
  else if c = '/' then some '/'
  else if c = 'n' then some '\n'
  else if c = 't' then some '\t'
  else if c = 'r' then some '\r'
  else if c = 'b' then some (Char.ofNat 8)
  else if c = 'f' then some (Char.ofNat 12)
  else Option.none

/-- Parse the body of a JSON string up to the closing quote. -/
def parseStringBody : List Char → Option (List Char × List Char)
  | [] => Option.none
  | c :: cs =>
      if c = '"' then some ([], cs)
      else if c = '\\' then
        match cs with
        | [] => Option.none
        | e :: cs2 =>
            match parseEscape e with
            | some ch => (parseStringBody cs2).map (fun p => (ch :: p.1, p.2))
            | Option.none => Option.none
      else (parseStringBody cs).map (fun p => (c :: p.1, p.2))
termination_by cs => cs.length
decreasing_by all_goals simp_arith

/-- Accumulate a run of decimal digits. -/
def digitsToNat (acc : Nat) : List Char → Nat × List Char
  | c :: cs =>
      if c.isDigit then digitsToNat (acc * 10 + (c.toNat - 48)) cs
      else (acc, c :: cs)
  | [] => (acc, [])

/-- Parse a JSON integer (optional minus sign followed by digits; the model
covers the integer subset of JSON numbers). -/
def parseNumber (cs : List Char) : Option (Json × List Char) :=
  match cs with
  | '-' :: rest =>
      match rest with
      | c :: _ =>
          if c.isDigit then
            let p := digitsToNat 0 rest
            some (Json.num (-(p.1 : Int)), p.2)
          else Option.none
      | [] => Option.none
  | c :: _ =>
      if c.isDigit then
        let p := digitsToNat 0 cs
        some (Json.num (p.1 : Int), p.2)
      else Option.none
  | [] => Option.none

mutual

/-- Modelled from the spec: the recursive-descent value parser inside
Python's `json.loads` (fuelled; arrays, objects, strings, integers and the
three literals). -/
def parseValue : Nat → List Char → Option (Json × List Char)
  | 0, _ => Option.none
  | Nat.succ fuel, cs =>
      match cs with
      | [] => Option.none
      | c :: rest =>
          if c = 'n' then
            match rest with
            | 'u' :: 'l' :: 'l' :: r => some (Json.null, r)
            | _ => Option.none
          else if c = 't' then
            match rest with
            | 'r' :: 'u' :: 'e' :: r => some (Json.bool true, r)
            | _ => Option.none
          else if c = 'f' then
            match rest with
            | 'a' :: 'l' :: 's' :: 'e' :: r => some (Json.bool false, r)
            | _ => Option.none
          else if c = '"' then
            (parseStringBody rest).map (fun p => (Json.str (String.mk p.1), p.2))
          else if c = '[' then
            match skipWs rest with
            | ']' :: r => some (Json.arr [], r)
            | cs1 => (parseElements fuel cs1).map (fun p => (Json.arr p.1, p.2))
          else if c = lbraceChar then
            match skipWs rest with
            | c2 :: r =>
                if c2 = rbraceChar then some (Json.obj [], r)
                else (parseMembers fuel (c2 :: r)).map
                       (fun p => (Json.obj p.1, p.2))
            | [] => Option.none
          else parseNumber (c :: rest)

/-- Comma-separated array elements up to the closing bracket. -/
def parseElements : Nat → List Char → Option (List Json × List Char)
  | 0, _ => Option.none
  | Nat.succ fuel, cs =>
      match parseValue fuel (skipWs cs) with
      | Option.none => Option.none
      | some (v, rest) =>
          match skipWs rest with
          | ',' :: r => (parseElements fuel r).map (fun p => (v :: p.1, p.2))
          | ']' :: r => some ([v], r)
          | _ => Option.none

/-- Comma-separated object members up to the closing brace. -/
def parseMembers : Nat → List Char → Option (List (String × Json) × List Char)
  | 0, _ => Option.none
  | Nat.succ fuel, cs =>
      match skipWs cs with
      | '"' :: rest =>
          match parseStringBody rest with
          | Option.none => Option.none
          | some (key, rest2) =>
              match skipWs rest2 with
              | ':' :: rest3 =>
                  match parseValue fuel (skipWs rest3) with
                  | Option.none => Option.none
                  | some (v, rest4) =>
                      match skipWs rest4 with
                      | ',' :: r =>
                          (parseMembers fuel r).map
                            (fun p => ((String.mk key, v) :: p.1, p.2))
                      | c :: r =>
                          if c = rbraceChar then some ([(String.mk key, v)], r)
                          else Option.none
                      | [] => Option.none
              | _ => Option.none
      | _ => Option.none

end

/-- Modelled from the spec: Python's `json.loads` on decoded text — parse one
value surrounded by optional whitespace, requiring the whole input to be
consumed. -/
def jsonParse (cs : List Char) : Option Json :=
  match parseValue (cs.length + 1) (skipWs cs) with
  | some (j, rest) => if skipWs rest = [] then some j else Option.none
  | Option.none => Option.none

/-- Modelled from the spec: Python's `json.loads` applied to UTF-8 bytes
(ASCII-restricted model). -/
def json_loads (bytes : List Nat) : Option Json :=
  match asciiDecode bytes with
  | some cs => jsonParse cs
  | Option.none => Option.none

/-- Outcome of the effective `_Survey.export_responses` (the second
definition of that name in the class body, which in Python replaces the
first): a parsed JSON document, a raised `LimeSurveyError`, a failed
assertion, or a `json.loads` parse error. -/
inductive ExportOutcome where
  | ok (j : Json)
  | raiseLime (method : String) (status : PyVal)
  | assertFail
  | parseError

/-- Embedding of the effective `_Survey.export_responses` response handling:
any dict carrying a `"status"` key raises `LimeSurveyError(method, status)`;
otherwise the response is asserted to be a string, base64-decoded
(`decodestring`) and JSON-parsed (`json.loads`), and the parsed value is
returned. -/
def export_responses (response : PyVal) : ExportOutcome :=
  match response with
  | PyVal.dict entries =>
      match lookupEntry entries "status" with
      | some status => ExportOutcome.raiseLime "export_responses" status
      | Option.none => ExportOutcome.assertFail
  | PyVal.str s =>
      match json_loads (decodestring s.data) with
      | some j => ExportOutcome.ok j
      | Option.none => ExportOutcome.parseError
  | _ => ExportOutcome.assertFail

/-- The 17 fixed field names of a question document
(`question_fieldnames` in the source). -/
def question_fieldnames : List String :=
  ["qid", "parent_qid", "sid", "gid", "type", "title", "question", "preg",
   "help", "other", "mandatory", "question_order", "language", "scale_id",
   "same_default", "relevance", "modulename"]

/-- The part of `question_template` before the `fieldnames` placeholder. -/
def question_template_head : String :=
  "<?xml version=\"1.0\" encoding=\"UTF-8\"?>\n<document>\n <LimeSurveyDocType>Question</LimeSurveyDocType>\n <DBVersion>355</DBVersion>\n <languages>\n  <language>en</language>\n </languages>\n <questions>\n  "

/-- The part of `question_template` between the two placeholders. -/
def question_template_sep : String := "\n  "

/-- The part of `question_template` after the `rows` placeholder. -/
def question_template_tail : String := "\n </questions>\n</document>\n"

/-- The full `question_template` literal (with its two `%`-placeholders). -/
def question_template : String :=
  question_template_head ++ "%(fieldnames)s" ++ question_template_sep ++
    "%(rows)s" ++ question_template_tail

/-- Concatenating join, as Python's `''.join`. -/
def strJoin : List String → String
  | [] => ""
  | s :: rest => s ++ strJoin rest

/-- Embedding of `render_lsq_fieldnames`: start from `['<fields>']`, append
one `<fieldname>` element per field name, close with `'</fields>'`, join. -/
def render_lsq_fieldnames (fieldnames : List String) : String :=
  strJoin
    ((fieldnames.foldl
        (fun l fieldname => l ++ ["<fieldname>" ++ fieldname ++ "</fieldname>"])
        ["<fields>"]) ++ ["</fields>"])

/-- Embedding of `render_lsq_rows`: start from `['<rows><row>']`; a field
whose value `is None` appends a self-closing element, any other value
appends the value wrapped in a CDATA section inside the field's tag
(`str()`-converted, with no XML escaping); close with `'</row></rows>'`,
join. -/
def render_lsq_rows (fieldvalues : List (String × PyVal)) : String :=
  strJoin
    ((fieldvalues.foldl
        (fun l fv =>
          l ++ [match fv.2 with
                | PyVal.none => "<" ++ fv.1 ++ "/>"
                | v => "<" ++ fv.1 ++ "><![CDATA[" ++ pyStr v ++ "]]></" ++
                    fv.1 ++ ">"])
        ["<rows><row>"]) ++ ["</row></rows>"])

/-- The claim-side rendering of a single row field, following the spec's
words: a null value renders as a self-closing element named after the field;
any other value is wrapped in the field's tag inside a CDATA section, with
no escaping of names or values. -/
def renderRowFromSpec (fv : String × PyVal) : String :=
  match fv.2 with
  | PyVal.none => "<" ++ fv.1 ++ "/>"
  | v => "<" ++ fv.1 ++ "><![CDATA[" ++ pyStr v ++ "]]></" ++ fv.1 ++ ">"

/-- The claim-side rows block, following the spec's words: one rendered entry
per field, in the mapping's iteration order. -/
def rowsFromSpec (fieldvalues : List (String × PyVal)) : String :=
  "<rows><row>" ++ strJoin (fieldvalues.map renderRowFromSpec) ++
    "</row></rows>"

/-- The claim-side fieldnames block, following the spec's words: one
`<fieldname>` entry per field, in order, unescaped. -/
def fieldnamesFromSpec (fieldnames : List String) : String :=
  "<fields>" ++
    strJoin (fieldnames.map
      (fun f => "<fieldname>" ++ f ++ "</fieldname>")) ++
    "</fields>"

/-- Embedding of `render_lsq`: interpolate the fieldnames and rows blocks
into `question_template` (Python `%` formatting with the two named
placeholders), UTF-8 encode and base64 encode with `encodestring`. -/
def render_lsq (fields : List (String × PyVal)) : String :=
  let fieldnames_str := render_lsq_fieldnames (fields.map (fun e => e.1))
  let rows_str := render_lsq_rows fields
  let lsq_str := question_template_head ++ fieldnames_str ++
    question_template_sep ++ rows_str ++ question_template_tail
  String.mk (encodestring (utf8Encode lsq_str.data))

/-- The pre-base64 document text of `render_lsq` (the interpolated
`lsq_str`). -/
def lsqText (fields : List (String × PyVal)) : String :=
  question_template_head ++ render_lsq_fieldnames (fields.map (fun e => e.1)) ++
    question_template_sep ++ render_lsq_rows fields ++ question_template_tail

/-- The `QUESTION_TYPE` enumeration: member name to single-character code. -/
def QUESTION_TYPE_members : List (String × String) :=
  [("LIST_5_POINT_CHOICE", "5"), ("LIST_DROPDOWN", "!"),
   ("LIST_WITH_COMMENT", "O"), ("LIST_RADIO", "L"),
   ("ARRAY", "F"), ("ARRAY_10_POINT_CHOICE", "B"),
   ("ARRAY_5_POINT_CHOICE", "A"), ("ARRAY_INCREASE_SAME_DECREASE", "E"),
   ("ARRAY_NUMBERS", ":"), ("ARRAY_TEXTS", ";"),
   ("ARRAY_YES_NO_UNCERTAIN", "C"), ("ARRAY_COLUMN", "H"),
   ("ARRAY_DUAL_SCALE", "1"),
   ("MASK_DATE_TIME", "D"), ("MASK_EQUATION", "*"),
   ("MASK_FILE_UPLOAD", "|"), ("MASK_GENDER", "G"),
   ("MASK_LANGUAGE_SWITCH", "I"), ("MASK_MULTIPLE_NUMERICAL_INPUT", "K"),
   ("MASK_NUMERICAL_INPUT", "N"), ("MASK_RANKING", "R"),
   ("MASK_TEXT_DISPLAY", "X"), ("MASK_YES_NO", "Y"),
   ("TEXT_HUGE_FREE_TEXT", "U"), ("TEXT_LONG_FREE_TEXT", "T"),
   ("TEXT_MULTIPLE_SHORT_TEXT", "Q"), ("TEXT_SHORT_FREE_TEXT", "S"),
   ("MULTIPLE_CHOICE", "M"), ("MULTIPLE_CHOICE_WITH_COMMENT", "P")]

/-- Membership/value lookup in `QUESTION_TYPE.__members__` /
`getattr(QUESTION_TYPE, name).value`. -/
def question_type_lookup (name : String) : Option String :=
  (QUESTION_TYPE_members.find? (fun m => m.1 == name)).map (fun m => m.2)

/-- Python `str.upper()` (ASCII model, which covers every enumeration
name). -/
def pyUpper (s : String) : String := String.mk (s.data.map Char.toUpper)

/-- Embedding of the question-type resolution at the top of
`_Survey.add_question`: a falsy `question_type` (absent or empty) defaults to
`'TEXT_SHORT_FREE_TEXT'`; the name is uppercased and must be a
`QUESTION_TYPE` member, else `ValueError('invalid question type')` is raised
before any transport call; on success the member's code is used. -/
def resolve_question_type (question_type : Option String) :
    Except String String :=
  let qt := match question_type with
    | Option.none => "TEXT_SHORT_FREE_TEXT"
    | some s => if s = "" then "TEXT_SHORT_FREE_TEXT" else s
  match question_type_lookup (pyUpper qt) with
  | some code => Except.ok code
  | Option.none => Except.error "invalid question type"

/-- The question-document field dictionary built by `_Survey.add_question`:
`dict.fromkeys(question_fieldnames)` (every field present, `None`-valued, in
the fixed order) updated in place with the computed entries. -/
def add_question_fields (survey_id group_id : Int) (question : String)
    (question_help : Option String) (type_code : String) (mandatory : String)
    (title : String) : List (String × PyVal) :=
  [("qid", PyVal.none),
   ("parent_qid", PyVal.int 0),
   ("sid", PyVal.int survey_id),
   ("gid", PyVal.int group_id),
   ("type", PyVal.str type_code),
   ("title", PyVal.str title),
   ("question", PyVal.str question),
   ("preg", PyVal.none),
   ("help", match question_help with
     | some h => PyVal.str h
     | Option.none => PyVal.none),
   ("other", PyVal.none),
   ("mandatory", PyVal.str mandatory),
   ("question_order", PyVal.none),
   ("language", PyVal.str "en"),
   ("scale_id", PyVal.none),
   ("same_default", PyVal.none),
   ("relevance", PyVal.none),
   ("modulename", PyVal.none)]

/-- The request `_Survey.add_question` hands to the transport: the RPC
method name, the question document it builds, and the ordered parameter
dictionary (whose `sImportData` is the rendered, base64-encoded document). -/
structure PreparedRequest where
  method : String
  fields : List (String × PyVal)
  params : List (String × PyVal)

/-- Embedding of everything `_Survey.add_question` does before its transport
call: type resolution (raising `ValueError` for an unrecognized non-empty
name, in which case no request is built and no transport call is issued),
the `'N'` default for a falsy `mandatory`, the `'q'`-prefixed random title
(`r` is the value drawn by the ID generator's `random.randint`), the field
dictionary and the final parameter dictionary. -/
def add_question_prepare (session_key : String) (survey_id group_id : Int)
    (question : String) (question_help : Option String)
    (question_type : Option String) (mandatory : Option String)
    (r : Nat) : Except String PreparedRequest :=
  match resolve_question_type question_type with
  | Except.error e => Except.error e
  | Except.ok type_code =>
      let mand := match mandatory with
        | Option.none => "N"
        | some m => if m = "" then "N" else m
      let title := "q" ++ generate_id r
      let fields := add_question_fields survey_id group_id question
        question_help type_code mand title
      Except.ok
        { method := "import_question"
          fields := fields
          params :=
            [("sSessionKey", PyVal.str session_key),
             ("iSurveyID", PyVal.int survey_id),
             ("iGroupID", PyVal.int group_id),
             ("sImportData", PyVal.str (render_lsq fields)),
             ("sImportDataType", PyVal.str "lsq")] }

/-- Whether an `Except` result is a success. -/
def exceptOk {e a : Type} : Except e a → Bool
  | Except.ok _ => true
  | Except.error _ => false

/-- A status string that occurs in the error list is raised (with the method
name) by the embedded error-message loop. -/
theorem raiseOnMatch_mem (method : String) (msgs : List String) (st : String)
    (next : OpOutcome) (h : st ∈ msgs) :
    raiseOnMatch method msgs (PyVal.str st) next =
      OpOutcome.raiseLime method st := by
  induction msgs with
  | nil => cases h
  | cons m rest ih =>
      simp only [raiseOnMatch, pyEqStr]
      by_cases he : st = m
      · subst he; simp
      · simp only [beq_iff_eq, he, if_false]
        rcases List.mem_cons.mp h with h1 | h2
        · exact absurd h1 he
        · exact ih h2

/-- A status string outside the error list falls through the embedded
error-message loop. -/
theorem raiseOnMatch_not_mem (method : String) (msgs : List String)
    (st : String) (next : OpOutcome) (h : st ∉ msgs) :
    raiseOnMatch method msgs (PyVal.str st) next = next := by
  induction msgs with
  | nil => rfl
  | cons m rest ih =>
      simp only [raiseOnMatch, pyEqStr]
      have he : st ≠ m := fun e => h (e ▸ List.mem_cons_self m rest)
      simp only [beq_iff_eq, he, if_false]
      exact ih (fun hm => h (List.mem_cons_of_mem m hm))

/-- Classification with no empty-result sentinel: a declared error status
raises. -/
theorem handleResponse_raise_none (method : String) (errs : List String)
    (ty : PyType) (entries : List (String × PyVal)) (st : String)
    (hlk : lookupEntry entries "status" = some (PyVal.str st))
    (hmem : st ∈ errs) :
    handleResponse method Option.none errs ty (PyVal.dict entries) =
      OpOutcome.raiseLime method st := by
  simp only [handleResponse, hlk]
  exact raiseOnMatch_mem method errs st _ hmem

/-- Classification with an empty-result sentinel: a declared error status
(the sentinel itself never being declared) raises. -/
theorem handleResponse_raise_some (method sent : String) (errs : List String)
    (ty : PyType) (entries : List (String × PyVal)) (st : String)
    (hlk : lookupEntry entries "status" = some (PyVal.str st))
    (hmem : st ∈ errs) (hns : sent ∉ errs) :
    handleResponse method (some sent) errs ty (PyVal.dict entries) =
      OpOutcome.raiseLime method st := by
  have hne : st ≠ sent := fun he => hns (he ▸ hmem)
  simp only [handleResponse, hlk, pyEqStr, beq_iff_eq, hne, if_false]
  exact raiseOnMatch_mem method errs st _ hmem

/-- Classification with no sentinel: an undeclared status string falls
through every comparison and the dict is returned unchanged. -/
theorem handleResponse_pass_none (method : String) (errs : List String)
    (ty : PyType) (entries : List (String × PyVal)) (st : String)
    (hlk : lookupEntry entries "status" = some (PyVal.str st))
    (hmem : st ∉ errs) :
    handleResponse method Option.none errs ty (PyVal.dict entries) =
      OpOutcome.ret (PyVal.dict entries) := by
  simp only [handleResponse, hlk]
  exact raiseOnMatch_not_mem method errs st _ hmem

/-- Classification with a sentinel: a status string that is neither the
sentinel nor declared falls through and the dict is returned unchanged. -/
theorem handleResponse_pass_some (method sent : String) (errs : List String)
    (ty : PyType) (entries : List (String × PyVal)) (st : String)
    (hlk : lookupEntry entries "status" = some (PyVal.str st))
    (hmem : st ∉ errs) (hne : st ≠ sent) :
    handleResponse method (some sent) errs ty (PyVal.dict entries) =
      OpOutcome.ret (PyVal.dict entries) := by
  simp only [handleResponse, hlk, pyEqStr, beq_iff_eq, hne, if_false]
  exact raiseOnMatch_not_mem method errs st _ hmem

/-- Classification with a sentinel: the sentinel status returns `[]`. -/
theorem handleResponse_sentinel (method sent : String) (errs : List String)
    (ty : PyType) (entries : List (String × PyVal))
    (hlk : lookupEntry entries "status" = some (PyVal.str sent)) :
    handleResponse method (some sent) errs ty (PyVal.dict entries) =
      OpOutcome.ret (PyVal.list []) := by
  simp only [handleResponse, hlk, pyEqStr, beq_self_eq_true, if_true]

/-- C1: for every operation, a transport response that is a mapping whose
`status` value is a string in that operation's declared error list (the
literal `error_messages` of its body) makes the operation raise
`LimeSurveyError` carrying the operation's RPC method name and that exact
status string.  The effective `export_responses` declares no list and raises
for every status value, hence in particular for every declared one. -/
theorem claim_c1_declared_error_status_raises :
    (∀ entries st, lookupEntry entries "status" = some (PyVal.str st) →
      st ∈ list_surveys_error_messages →
      list_surveys_handle (PyVal.dict entries) =
        OpOutcome.raiseLime "list_surveys" st) ∧
    (∀ entries st, lookupEntry entries "status" = some (PyVal.str st) →
      st ∈ list_questions_error_messages →
      list_questions_handle (PyVal.dict entries) =
        OpOutcome.raiseLime "list_questions" st) ∧
    (∀ entries st, lookupEntry entries "status" = some (PyVal.str st) →
      st ∈ add_survey_error_messages →
      add_survey_handle (PyVal.dict entries) =
        OpOutcome.raiseLime "add_survey" st) ∧
    (∀ entries st, lookupEntry entries "status" = some (PyVal.str st) →
      st ∈ delete_survey_error_messages →
      delete_survey_handle (PyVal.dict entries) =
        OpOutcome.raiseLime "delete_survey" st) ∧
    (∀ entries st, lookupEntry entries "status" = some (PyVal.str st) →
      st ∈ add_question_error_messages →
      add_question_handle (PyVal.dict entries) =
        OpOutcome.raiseLime "import_question" st) ∧
    (∀ entries st, lookupEntry entries "status" = some (PyVal.str st) →
      st ∈ delete_question_error_messages →
      delete_question_handle (PyVal.dict entries) =
        OpOutcome.raiseLime "delete_question" st) ∧
    (∀ entries st, lookupEntry entries "status" = some (PyVal.str st) →
      st ∈ import_survey_error_messages →
      import_survey_handle (PyVal.dict entries) =
        OpOutcome.raiseLime "import_survey" st) ∧
    (∀ entries st, lookupEntry entries "status" = some (PyVal.str st) →
      st ∈ activate_survey_error_messages →
      activate_survey_handle (PyVal.dict entries) =
        OpOutcome.raiseLime "activate_survey" st) ∧
    (∀ entries st, lookupEntry entries "status" = some (PyVal.str st) →
      st ∈ activate_tokens_error_messages →
      activate_tokens_handle (PyVal.dict entries) =
        OpOutcome.raiseLime "activate_tokens" st) ∧
    (∀ entries st, lookupEntry entries "status" = some (PyVal.str st) →
      st ∈ list_groups_error_messages →
      list_groups_handle (PyVal.dict entries) =
        OpOutcome.raiseLime "list_groups" st) ∧
    (∀ entries st, lookupEntry entries "status" = some (PyVal.str st) →
      st ∈ add_group_error_messages →
      add_group_handle (PyVal.dict entries) =
        OpOutcome.raiseLime "add_group" st) ∧
    (∀ entries st, lookupEntry entries "status" = some (PyVal.str st) →
      st ∈ get_survey_properties_error_messages →
      get_survey_properties_handle (PyVal.dict entries) =
        OpOutcome.raiseLime "get_survey_properties" st) ∧
    (∀ entries st, lookupEntry entries "status" = some (PyVal.str st) →
      st ∈ set_survey_properties_error_messages →
      set_survey_properties_handle (PyVal.dict entries) =
        OpOutcome.raiseLime "set_survey_properties" st) ∧
    (∀ entries st, lookupEntry entries "status" = some (PyVal.str st) →
      st ∈ add_response_error_messages →
      add_response_handle (PyVal.dict entries) =
        OpOutcome.raiseLime "add_response" st) ∧
    (∀ entries st, lookupEntry entries "status" = some (PyVal.str st) →
      export_responses (PyVal.dict entries) =
        ExportOutcome.raiseLime "export_responses" (PyVal.str st)) := by
  refine ⟨?_, ?_, ?_, ?_, ?_, ?_, ?_, ?_, ?_, ?_, ?_, ?_, ?_, ?_, ?_⟩
  · exact fun entries st h hm =>
      handleResponse_raise_some _ _ _ _ _ _ h hm (by decide)
  · exact fun entries st h hm =>
      handleResponse_raise_some _ _ _ _ _ _ h hm (by decide)
  · exact fun entries st h hm => handleResponse_raise_none _ _ _ _ _ h hm
  · exact fun entries st h hm => handleResponse_raise_none _ _ _ _ _ h hm
  · exact fun entries st h hm => handleResponse_raise_none _ _ _ _ _ h hm
  · exact fun entries st h hm => handleResponse_raise_none _ _ _ _ _ h hm
  · exact fun entries st h hm => handleResponse_raise_none _ _ _ _ _ h hm
  · exact fun entries st h hm => handleResponse_raise_none _ _ _ _ _ h hm
  · exact fun entries st h hm => handleResponse_raise_none _ _ _ _ _ h hm
  · exact fun entries st h hm =>
      handleResponse_raise_some _ _ _ _ _ _ h hm (by decide)
  · exact fun entries st h hm => handleResponse_raise_none _ _ _ _ _ h hm
  · exact fun entries st h hm => handleResponse_raise_none _ _ _ _ _ h hm
  · exact fun entries st h hm => handleResponse_raise_none _ _ _ _ _ h hm
  · exact fun entries st h hm => handleResponse_raise_none _ _ _ _ _ h hm
  · intro entries st h
    simp only [export_responses, h]

/-- Witness for C1: a concrete `list_surveys` response with the declared
status `"Invalid user"` raises. -/
theorem claim_c1_witness :
    list_surveys_handle (PyVal.dict [("status", PyVal.str "Invalid user")]) =
      OpOutcome.raiseLime "list_surveys" "Invalid user" :=
  claim_c1_declared_error_status_raises.1
    [("status", PyVal.str "Invalid user")] "Invalid user" rfl (by decide)

/-- Counterexample to C2: a mapping response whose status matches neither the
sentinel nor any declared error string is returned unchanged as the success
value — no assertion failure occurs (shown for `list_surveys`, whose declared
success type is list, and for `get_survey_properties`). -/
theorem claim_c2_counterexample :
    list_surveys_handle
        (PyVal.dict [("status", PyVal.str "Undocumented status")]) =
      OpOutcome.ret (PyVal.dict [("status", PyVal.str "Undocumented status")]) ∧
    list_surveys_handle
        (PyVal.dict [("status", PyVal.str "Undocumented status")]) ≠
      OpOutcome.assertFail ∧
    get_survey_properties_handle
        (PyVal.dict [("status", PyVal.str "Undocumented status")]) =
      OpOutcome.ret
        (PyVal.dict [("status", PyVal.str "Undocumented status")]) := by
  have h1 : list_surveys_handle
      (PyVal.dict [("status", PyVal.str "Undocumented status")]) =
      OpOutcome.ret
        (PyVal.dict [("status", PyVal.str "Undocumented status")]) := rfl
  refine ⟨h1, ?_, rfl⟩
  intro h
  rw [h1] at h
  exact OpOutcome.noConfusion h

/-- C2 (amended): when a mapping response carries a `status` string matching
neither the operation's empty-result sentinel nor any declared error string,
every operation except the effective `export_responses` returns that mapping
unchanged as its success value — no assertion failure and no typed error.
The success-type assertion applies only to responses that are not mappings
with a `status` field.  The effective `export_responses` instead raises
`LimeSurveyError` for every status value. -/
theorem claim_c2_amended_unmatched_status_returned :
    (∀ entries st, lookupEntry entries "status" = some (PyVal.str st) →
      st ∉ list_surveys_error_messages → st ≠ "No surveys found" →
      list_surveys_handle (PyVal.dict entries) =
        OpOutcome.ret (PyVal.dict entries)) ∧
    (∀ entries st, lookupEntry entries "status" = some (PyVal.str st) →
      st ∉ list_questions_error_messages → st ≠ "No questions found" →
      list_questions_handle (PyVal.dict entries) =
        OpOutcome.ret (PyVal.dict entries)) ∧
    (∀ entries st, lookupEntry entries "status" = some (PyVal.str st) →
      st ∉ add_survey_error_messages →
      add_survey_handle (PyVal.dict entries) =
        OpOutcome.ret (PyVal.dict entries)) ∧
    (∀ entries st, lookupEntry entries "status" = some (PyVal.str st) →
      st ∉ delete_survey_error_messages →
      delete_survey_handle (PyVal.dict entries) =
        OpOutcome.ret (PyVal.dict entries)) ∧
    (∀ entries st, lookupEntry entries "status" = some (PyVal.str st) →
      st ∉ add_question_error_messages →
      add_question_handle (PyVal.dict entries) =
        OpOutcome.ret (PyVal.dict entries)) ∧
    (∀ entries st, lookupEntry entries "status" = some (PyVal.str st) →
      st ∉ delete_question_error_messages →
      delete_question_handle (PyVal.dict entries) =
        OpOutcome.ret (PyVal.dict entries)) ∧
    (∀ entries st, lookupEntry entries "status" = some (PyVal.str st) →
      st ∉ import_survey_error_messages →
      import_survey_handle (PyVal.dict entries) =
        OpOutcome.ret (PyVal.dict entries)) ∧
    (∀ entries st, lookupEntry entries "status" = some (PyVal.str st) →
      st ∉ activate_survey_error_messages →
      activate_survey_handle (PyVal.dict entries) =
        OpOutcome.ret (PyVal.dict entries)) ∧
    (∀ entries st, lookupEntry entries "status" = some (PyVal.str st) →
      st ∉ activate_tokens_error_messages →
      activate_tokens_handle (PyVal.dict entries) =
        OpOutcome.ret (PyVal.dict entries)) ∧
    (∀ entries st, lookupEntry entries "status" = some (PyVal.str st) →
      st ∉ list_groups_error_messages → st ≠ "No groups found" →
      list_groups_handle (PyVal.dict entries) =
        OpOutcome.ret (PyVal.dict entries)) ∧
    (∀ entries st, lookupEntry entries "status" = some (PyVal.str st) →
      st ∉ add_group_error_messages →
      add_group_handle (PyVal.dict entries) =
        OpOutcome.ret (PyVal.dict entries)) ∧
    (∀ entries st, lookupEntry entries "status" = some (PyVal.str st) →
      st ∉ get_survey_properties_error_messages →
      get_survey_properties_handle (PyVal.dict entries) =
        OpOutcome.ret (PyVal.dict entries)) ∧
    (∀ entries st, lookupEntry entries "status" = some (PyVal.str st) →
      st ∉ set_survey_properties_error_messages →
      set_survey_properties_handle (PyVal.dict entries) =
        OpOutcome.ret (PyVal.dict entries)) ∧
    (∀ entries st, lookupEntry entries "status" = some (PyVal.str st) →
      st ∉ add_response_error_messages →
      add_response_handle (PyVal.dict entries) =
        OpOutcome.ret (PyVal.dict entries)) ∧
    (∀ entries status, lookupEntry entries "status" = some status →
      export_responses (PyVal.dict entries) =
        ExportOutcome.raiseLime "export_responses" status) := by
  refine ⟨?_, ?_, ?_, ?_, ?_, ?_, ?_, ?_, ?_, ?_, ?_, ?_, ?_, ?_, ?_⟩
  · exact fun entries st h hm hs =>
      handleResponse_pass_some _ _ _ _ _ _ h hm hs
  · exact fun entries st h hm hs =>
      handleResponse_pass_some _ _ _ _ _ _ h hm hs
  · exact fun entries st h hm => handleResponse_pass_none _ _ _ _ _ h hm
  · exact fun entries st h hm => handleResponse_pass_none _ _ _ _ _ h hm
  · exact fun entries st h hm => handleResponse_pass_none _ _ _ _ _ h hm
  · exact fun entries st h hm => handleResponse_pass_none _ _ _ _ _ h hm
  · exact fun entries st h hm => handleResponse_pass_none _ _ _ _ _ h hm
  · exact fun entries st h hm => handleResponse_pass_none _ _ _ _ _ h hm
  · exact fun entries st h hm => handleResponse_pass_none _ _ _ _ _ h hm
  · exact fun entries st h hm hs =>
      handleResponse_pass_some _ _ _ _ _ _ h hm hs
  · exact fun entries st h hm => handleResponse_pass_none _ _ _ _ _ h hm
  · exact fun entries st h hm => handleResponse_pass_none _ _ _ _ _ h hm
  · exact fun entries st h hm => handleResponse_pass_none _ _ _ _ _ h hm
  · exact fun entries st h hm => handleResponse_pass_none _ _ _ _ _ h hm
  · intro entries status h
    simp only [export_responses, h]

/-- Witness for C2 (amended): `list_groups` returns the mapping unchanged for
the status `"No permission"` — which, because of the missing comma in its
source list, is not among its declared error strings. -/
theorem claim_c2_witness :
    list_groups_handle (PyVal.dict [("status", PyVal.str "No permission")]) =
      OpOutcome.ret (PyVal.dict [("status", PyVal.str "No permission")]) :=
  claim_c2_amended_unmatched_status_returned.2.2.2.2.2.2.2.2.2.1
    [("status", PyVal.str "No permission")] "No permission" rfl
    (by decide) (by decide)

/-- C3: for each operation with a documented empty-result sentinel
(`list_surveys` / `"No surveys found"`, `list_questions` /
`"No questions found"`, `list_groups` / `"No groups found"`), a mapping
response whose `status` equals the sentinel makes the operation return the
empty list rather than raise. -/
theorem claim_c3_empty_sentinel_returns_empty_list :
    (∀ entries,
      lookupEntry entries "status" = some (PyVal.str "No surveys found") →
      list_surveys_handle (PyVal.dict entries) =
        OpOutcome.ret (PyVal.list [])) ∧
    (∀ entries,
      lookupEntry entries "status" = some (PyVal.str "No questions found") →
      list_questions_handle (PyVal.dict entries) =
        OpOutcome.ret (PyVal.list [])) ∧
    (∀ entries,
      lookupEntry entries "status" = some (PyVal.str "No groups found") →
      list_groups_handle (PyVal.dict entries) =
        OpOutcome.ret (PyVal.list [])) := by
  refine ⟨?_, ?_, ?_⟩
  · exact fun entries h => handleResponse_sentinel _ _ _ _ _ h
  · exact fun entries h => handleResponse_sentinel _ _ _ _ _ h
  · exact fun entries h => handleResponse_sentinel _ _ _ _ _ h

/-- Witness for C3: a concrete `"No surveys found"` response yields `[]`. -/
theorem claim_c3_witness :
    list_surveys_handle
        (PyVal.dict [("status", PyVal.str "No surveys found")]) =
      OpOutcome.ret (PyVal.list []) :=
  claim_c3_empty_sentinel_returns_empty_list.1
    [("status", PyVal.str "No surveys found")] rfl

/-- C10: in the parameter dictionary `add_survey` sends, `iSurveyID` is `1`
when `survey_id` is omitted or falsy (`None` or `0`), and `int(survey_id)`
for any truthy (non-zero) `survey_id`. -/
theorem claim_c10_add_survey_id_default :
    (∀ sk t l f,
      lookupEntry (add_survey_params sk t Option.none l f) "iSurveyID" =
        some (PyVal.int 1)) ∧
    (∀ sk t l f,
      lookupEntry (add_survey_params sk t (some 0) l f) "iSurveyID" =
        some (PyVal.int 1)) ∧
    (∀ sk t l f (n : Int), n ≠ 0 →
      lookupEntry (add_survey_params sk t (some n) l f) "iSurveyID" =
        some (PyVal.int n)) := by
  refine ⟨fun sk t l f => rfl, fun sk t l f => rfl, ?_⟩
  intro sk t l f n hn
  show some (PyVal.int (if n = 0 then 1 else n)) = some (PyVal.int n)
  rw [if_neg hn]

/-- Witness for C10: a concrete truthy id `5` is passed through. -/
theorem claim_c10_witness :
    lookupEntry (add_survey_params "key" "T" (some 5) Option.none Option.none)
        "iSurveyID" = some (PyVal.int 5) :=
  claim_c10_add_survey_id_default.2.2 "key" "T" Option.none Option.none 5
    (by decide)

/-- Unfolding: `_encode_int` of `0` is the empty string. -/
theorem encodeInt_zero : encodeInt 0 = [] := by simp [encodeInt]

/-- Unfolding: one `divmod` step of `_encode_int`. -/
theorem encodeInt_ne (n : Nat) (h : n ≠ 0) :
    encodeInt n = encodeInt (n / 36) ++ [alphaChar (n % 36)] := by
  rw [encodeInt]
  simp [h]

/-- Every alphabet index below 36 yields an alphabet character. -/
theorem alphaChar_mem : ∀ r, r < 36 → alphaChar r ∈ ALPHABET := by decide

/-- A non-zero digit never encodes to the zero-index character `'a'`. -/
theorem alphaChar_ne_a : ∀ d, d < 36 → 1 ≤ d → alphaChar d ≠ 'a' := by decide

/-- `_encode_int` produces exactly `L+1` characters on the numeric range
`[36^L, 36^(L+1))`. -/
theorem encodeInt_length : ∀ (L n : Nat), 36 ^ L ≤ n → n < 36 ^ (L + 1) →
    (encodeInt n).length = L + 1 := by
  intro L
  induction L with
  | zero =>
      intro n h1 h2
      norm_num at h1 h2
      rw [encodeInt_ne n (by omega), Nat.div_eq_of_lt h2, encodeInt_zero]
      rfl
  | succ K ih =>
      intro n h1 h2
      have h36 : (0 : Nat) < 36 := by omega
      have hn : n ≠ 0 := by
        have : 0 < 36 ^ (K + 1) := pow_pos h36 _
        omega
      rw [encodeInt_ne n hn, List.length_append]
      have hb1 : 36 ^ K ≤ n / 36 := by
        rw [Nat.le_div_iff_mul_le h36]
        calc 36 ^ K * 36 = 36 ^ (K + 1) := (pow_succ 36 K).symm
          _ ≤ n := h1
      have hb2 : n / 36 < 36 ^ (K + 1) := by
        rw [Nat.div_lt_iff_lt_mul h36]
        calc n < 36 ^ (K + 2) := h2
          _ = 36 ^ (K + 1) * 36 := pow_succ 36 (K + 1)
      rw [ih (n / 36) hb1 hb2]
      rfl

/-- The first character emitted by `_encode_int` on `[36^L, 36^(L+1))` is
the most-significant base-36 digit. -/
theorem encodeInt_head : ∀ (L n : Nat), 36 ^ L ≤ n → n < 36 ^ (L + 1) →
    (encodeInt n).head? = some (alphaChar (n / 36 ^ L)) := by
  intro L
  induction L with
  | zero =>
      intro n h1 h2
      norm_num at h1 h2
      rw [encodeInt_ne n (by omega), Nat.div_eq_of_lt h2, encodeInt_zero]
      simp [Nat.mod_eq_of_lt h2]
  | succ K ih =>
      intro n h1 h2
      have h36 : (0 : Nat) < 36 := by omega
      have hn : n ≠ 0 := by
        have : 0 < 36 ^ (K + 1) := pow_pos h36 _
        omega
      have hb1 : 36 ^ K ≤ n / 36 := by
        rw [Nat.le_div_iff_mul_le h36]
        calc 36 ^ K * 36 = 36 ^ (K + 1) := (pow_succ 36 K).symm
          _ ≤ n := h1
      have hb2 : n / 36 < 36 ^ (K + 1) := by
        rw [Nat.div_lt_iff_lt_mul h36]
        calc n < 36 ^ (K + 2) := h2
          _ = 36 ^ (K + 1) * 36 := pow_succ 36 (K + 1)
      have hne : encodeInt (n / 36) ≠ [] := by
        have hlen := encodeInt_length K (n / 36) hb1 hb2
        intro he
        rw [he] at hlen
        simp at hlen
      obtain ⟨d, ds, hds⟩ := List.exists_cons_of_ne_nil hne
      have hh := ih (n / 36) hb1 hb2
      rw [hds] at hh
      have hd : d = alphaChar (n / 36 / 36 ^ K) := by simpa using hh
      rw [encodeInt_ne n hn, hds]
      have harith : n / 36 / 36 ^ K = n / 36 ^ (K + 1) := by
        rw [Nat.div_div_eq_div_mul, ← pow_succ']
      simp [hd, harith]

/-- Every character emitted by `_encode_int` is an alphabet character. -/
theorem encodeInt_mem (n : Nat) : ∀ c ∈ encodeInt n, c ∈ ALPHABET := by
  induction n using Nat.strong_induction_on with
  | _ n ih =>
      by_cases h : n = 0
      · subst h
        rw [encodeInt_zero]
        intro c hc
        cases hc
      · rw [encodeInt_ne n h]
        intro c hc
        rcases List.mem_append.mp hc with h1 | h2
        · exact ih (n / 36)
            (Nat.div_lt_self (Nat.pos_of_ne_zero h) (by omega)) c h1
        · have hce : c = alphaChar (n % 36) := by simpa using h2
          subst hce
          exact alphaChar_mem (n % 36) (Nat.mod_lt n (by omega))

/-- C5: for every configured length `L ≥ 1`, provided the underlying random
integer `r` is drawn from `[36^(L-1), 36^L - 1]` (as `generate_id`'s
`randint` bounds guarantee), the generated ID has exactly `L` characters,
every character lies in the 36-character alphabet, and the first character
is never the alphabet's zero-index character `'a'`. -/
theorem claim_c5_generate_id_shape (L r : Nat) (hL : 1 ≤ L)
    (h1 : 36 ^ (L - 1) ≤ r) (h2 : r ≤ 36 ^ L - 1) :
    (generate_id r).length = L ∧
    (∀ c ∈ (generate_id r).data, c ∈ ALPHABET) ∧
    (∀ c, (generate_id r).data.head? = some c → c ≠ 'a') := by
  obtain ⟨K, rfl⟩ : ∃ K, L = K + 1 := ⟨L - 1, by omega⟩
  have hpow : 0 < 36 ^ (K + 1) := pow_pos (by omega) _
  have h1' : 36 ^ K ≤ r := by simpa using h1
  have h2' : r < 36 ^ (K + 1) := by omega
  refine ⟨?_, ?_, ?_⟩
  · exact encodeInt_length K r h1' h2'
  · intro c hc
    exact encodeInt_mem r c hc
  · intro c hc
    have hc' : (encodeInt r).head? = some c := hc
    rw [encodeInt_head K r h1' h2'] at hc'
    have hce : c = alphaChar (r / 36 ^ K) := by
      injection hc' with h
      exact h.symm
    subst hce
    have hKpos : 0 < 36 ^ K := pow_pos (by omega) K
    have hlo : 1 ≤ r / 36 ^ K := by
      rw [Nat.le_div_iff_mul_le hKpos]
      simpa using h1'
    have hhi : r / 36 ^ K < 36 := by
      rw [Nat.div_lt_iff_lt_mul hKpos]
      calc r < 36 ^ (K + 1) := h2'
        _ = 36 * 36 ^ K := pow_succ' 36 K
    exact alphaChar_ne_a _ hhi hlo

/-- Witness for C5: length 2 with the draw `40` gives the two-character
ID `"be"`, all characters in the alphabet, first character not `'a'`. -/
theorem claim_c5_witness :
    (generate_id 40).length = 2 ∧
    (∀ c ∈ (generate_id 40).data, c ∈ ALPHABET) ∧
    (∀ c, (generate_id 40).data.head? = some c → c ≠ 'a') :=
  claim_c5_generate_id_shape 2 40 (by omega) (by norm_num) (by norm_num)

/-- Joining distributes over list concatenation. -/
theorem strJoin_append (xs ys : List String) :
    strJoin (xs ++ ys) = strJoin xs ++ strJoin ys := by
  induction xs with
  | nil => rfl
  | cons a as ih =>
      show a ++ strJoin (as ++ ys) = a ++ strJoin as ++ strJoin ys
      rw [ih, String.append_assoc]

/-- A fold that appends one rendered element per input equals the initial
accumulator followed by the mapped list. -/
theorem foldl_append_map {α : Type} (g : α → String) :
    ∀ (xs : List α) (acc : List String),
      xs.foldl (fun l x => l ++ [g x]) acc = acc ++ xs.map g := by
  intro xs
  induction xs with
  | nil => intro acc; simp
  | cons x rest ih =>
      intro acc
      simp only [List.foldl_cons, List.map_cons]
      rw [ih (acc ++ [g x])]
      simp

/-- C8: for every ordered field mapping, `render_lsq_rows` renders exactly
one entry per field in the mapping's iteration order — a self-closing
element for a null value, the unescaped `str()` of the value inside a CDATA
section in the field's tag otherwise — and `render_lsq_fieldnames` renders
exactly one unescaped `<fieldname>` entry per field, in order (both proved
as equalities with the claim-side renderings `rowsFromSpec` /
`fieldnamesFromSpec`); on the spec's example mapping
`qid ↦ null, title ↦ "abc"` the rendered blocks are computed explicitly. -/
theorem claim_c8_render_rows_fieldnames :
    (∀ fieldvalues : List (String × PyVal),
      render_lsq_rows fieldvalues = rowsFromSpec fieldvalues) ∧
    (∀ fieldnames : List String,
      render_lsq_fieldnames fieldnames = fieldnamesFromSpec fieldnames) ∧
    render_lsq_rows [("qid", PyVal.none), ("title", PyVal.str "abc")] =
      "<rows><row><qid/><title><![CDATA[abc]]></title></row></rows>" ∧
    render_lsq_fieldnames ["qid", "title"] =
      "<fields><fieldname>qid</fieldname><fieldname>title</fieldname></fields>" := by
  have hrows : ∀ fieldvalues : List (String × PyVal),
      render_lsq_rows fieldvalues = rowsFromSpec fieldvalues := by
    intro fieldvalues
    show strJoin
        ((fieldvalues.foldl (fun l fv => l ++ [renderRowFromSpec fv])
          ["<rows><row>"]) ++ ["</row></rows>"]) = _
    rw [foldl_append_map renderRowFromSpec fieldvalues ["<rows><row>"],
      strJoin_append, strJoin_append]
    simp only [rowsFromSpec, strJoin, String.append_empty,
      String.append_assoc]
  have hnames : ∀ fieldnames : List String,
      render_lsq_fieldnames fieldnames = fieldnamesFromSpec fieldnames := by
    intro fieldnames
    show strJoin
        ((fieldnames.foldl
          (fun l f => l ++ ["<fieldname>" ++ f ++ "</fieldname>"])
          ["<fields>"]) ++ ["</fields>"]) = _
    rw [foldl_append_map (fun f => "<fieldname>" ++ f ++ "</fieldname>")
      fieldnames ["<fields>"], strJoin_append, strJoin_append]
    simp only [fieldnamesFromSpec, strJoin, String.append_empty,
      String.append_assoc]
  exact ⟨hrows, hnames, by rfl, by rfl⟩

/-- Decoding a base64 digit recovers its 6-bit value. -/
theorem b64DecodeIdx_b64Char : ∀ v, v < 64 → b64DecodeIdx (b64Char v) = v := by
  decide

/-- Every base64 digit is an alphabet character. -/
theorem inB64_b64Char : ∀ v, v < 64 → inB64 (b64Char v) = true := by decide

/-- Newlines are not base64 alphabet characters. -/
theorem inB64_nl : inB64 '\n' = false := by decide

/-- The padding character is not a base64 alphabet character. -/
theorem inB64_pad : inB64 '=' = false := by decide

/-- Every character's code point is below `0x110000`. -/
theorem char_toNat_lt (c : Char) : c.toNat < 1114112 := by
  have h : c.val.toNat < 55296 ∨ (57343 < c.val.toNat ∧ c.val.toNat < 1114112) :=
    c.valid
  show c.val.toNat < 1114112
  omega

/-- Base64 decoding (after discarding non-alphabet characters) inverts the
chunked base64 encoding on byte lists. -/
theorem b64_decode_encode : ∀ (l : List Nat), (∀ b ∈ l, b < 256) →
    b64DecodeQuads ((b64EncodeChunks l).filter inB64) = l
  | [], _ => by simp [b64EncodeChunks, b64DecodeQuads]
  | [a], h => by
      have ha : a < 256 := h a (by simp)
      have h1 : inB64 (b64Char (a / 4)) = true := inB64_b64Char _ (by omega)
      have h2 : inB64 (b64Char (a % 4 * 16)) = true := inB64_b64Char _ (by omega)
      simp only [b64EncodeChunks, List.filter_cons, h1, h2, inB64_pad,
        if_true, if_false, List.filter_nil, b64DecodeQuads]
      rw [b64DecodeIdx_b64Char _ (show a / 4 < 64 by omega),
        b64DecodeIdx_b64Char _ (show a % 4 * 16 < 64 by omega)]
      simp only [List.cons.injEq, and_true]
      omega
  | [a, b], h => by
      have ha : a < 256 := h a (by simp)
      have hb : b < 256 := h b (by simp)
      have h1 : inB64 (b64Char (a / 4)) = true := inB64_b64Char _ (by omega)
      have h2 : inB64 (b64Char (a % 4 * 16 + b / 16)) = true :=
        inB64_b64Char _ (by omega)
      have h3 : inB64 (b64Char (b % 16 * 4)) = true := inB64_b64Char _ (by omega)
      simp only [b64EncodeChunks, List.filter_cons, h1, h2, h3, inB64_pad,
        if_true, if_false, List.filter_nil, b64DecodeQuads]
      rw [b64DecodeIdx_b64Char _ (show a / 4 < 64 by omega),
        b64DecodeIdx_b64Char _ (show a % 4 * 16 + b / 16 < 64 by omega),
        b64DecodeIdx_b64Char _ (show b % 16 * 4 < 64 by omega)]
      simp only [List.cons.injEq, and_true]
      constructor
      · omega
      · omega
  | a :: b :: c :: rest, h => by
      have ha : a < 256 := h a (by simp)
      have hb : b < 256 := h b (by simp)
      have hc : c < 256 := h c (by simp)
      have h1 : inB64 (b64Char (a / 4)) = true := inB64_b64Char _ (by omega)
      have h2 : inB64 (b64Char (a % 4 * 16 + b / 16)) = true :=
        inB64_b64Char _ (by omega)
      have h3 : inB64 (b64Char (b % 16 * 4 + c / 64)) = true :=
        inB64_b64Char _ (by omega)
      have h4 : inB64 (b64Char (c % 64)) = true := inB64_b64Char _ (by omega)
      have ih := b64_decode_encode rest
        (fun x hx => h x (by simp [hx]))
      simp only [b64EncodeChunks, List.filter_cons, h1, h2, h3, h4, if_true,
        b64DecodeQuads, ih]
      rw [b64DecodeIdx_b64Char _ (show a / 4 < 64 by omega),
        b64DecodeIdx_b64Char _ (show a % 4 * 16 + b / 16 < 64 by omega),
        b64DecodeIdx_b64Char _ (show b % 16 * 4 + c / 64 < 64 by omega),
        b64DecodeIdx_b64Char _ (show c % 64 < 64 by omega)]
      simp only [List.cons.injEq]
      refine ⟨by omega, by omega, by omega, trivial⟩

/-- Filtering to alphabet characters erases the newlines inserted by the
76-column line splitting. -/
theorem filter_splitNL : ∀ (cs : List Char),
    (splitNL cs).filter inB64 = cs.filter inB64
  | [] => by simp [splitNL]
  | c :: rest => by
      rw [splitNL]
      rw [List.filter_append, List.filter_cons, inB64_nl]
      simp only [if_false, Bool.false_eq_true]
      rw [filter_splitNL ((c :: rest).drop 76)]
      rw [← List.filter_append, List.take_append_drop]
termination_by cs => cs.length
decreasing_by simp [List.length_drop]; omega

/-- `decodestring` inverts `encodestring` on byte lists. -/
theorem decodestring_encodestring (bytes : List Nat)
    (h : ∀ b ∈ bytes, b < 256) :
    decodestring (encodestring bytes) = bytes := by
  unfold decodestring encodestring
  rw [filter_splitNL]
  exact b64_decode_encode bytes h

/-- UTF-8 encoding emits bytes. -/
theorem utf8EncodeChar_lt (c : Char) : ∀ b ∈ utf8EncodeChar c, b < 256 := by
  have hv := char_toNat_lt c
  intro b hb
  unfold utf8EncodeChar at hb
  split_ifs at hb with h1 h2 h3 <;> simp at hb <;> omega

/-- UTF-8 encoding of a character list emits bytes. -/
theorem utf8Encode_lt (l : List Char) : ∀ b ∈ utf8Encode l, b < 256 := by
  induction l with
  | nil =>
      intro b hb
      simp [utf8Encode] at hb
  | cons c cs ih =>
      intro b hb
      simp only [utf8Encode] at hb
      rcases List.mem_append.mp hb with h1 | h2
      · exact utf8EncodeChar_lt c b h1
      · exact ih b h2

/-- Appending strings concatenates their character data. -/
theorem data_append (a b : String) : (a ++ b).data = a.data ++ b.data := rfl

/-- The fixed template text before the fieldnames placeholder decomposes
around the document-type marker. -/
theorem question_template_head_decomp :
    question_template_head =
      "<?xml version=\"1.0\" encoding=\"UTF-8\"?>\n<document>\n " ++
        "<LimeSurveyDocType>Question</LimeSurveyDocType>" ++
        "\n <DBVersion>355</DBVersion>\n <languages>\n  <language>en</language>\n </languages>\n <questions>\n  " := by
  rfl

/-- C9: for every field mapping, base64-decoding the output of `render_lsq`
yields a byte sequence that is the UTF-8 encoding of a character text (valid
UTF-8) containing the literal document-type marker
`<LimeSurveyDocType>Question</LimeSurveyDocType>` of the fixed template
shell. -/
theorem claim_c9_render_lsq_base64_roundtrip
    (fields : List (String × PyVal)) :
    ∃ text : List Char,
      decodestring (render_lsq fields).data = utf8Encode text ∧
      ∃ pre post : List Char,
        text =
          pre ++ "<LimeSurveyDocType>Question</LimeSurveyDocType>".data ++
            post := by
  refine ⟨(lsqText fields).data, ?_, ?_⟩
  · show decodestring
        (String.mk (encodestring (utf8Encode (lsqText fields).data))).data =
      utf8Encode (lsqText fields).data
    exact decodestring_encodestring _ (utf8Encode_lt _)
  · refine ⟨"<?xml version=\"1.0\" encoding=\"UTF-8\"?>\n<document>\n ".data,
      ("\n <DBVersion>355</DBVersion>\n <languages>\n  <language>en</language>\n </languages>\n <questions>\n  " ++
        render_lsq_fieldnames (fields.map (fun e => e.1)) ++
        question_template_sep ++ render_lsq_rows fields ++
        question_template_tail).data, ?_⟩
    show (question_template_head ++
        render_lsq_fieldnames (fields.map (fun e => e.1)) ++
        question_template_sep ++ render_lsq_rows fields ++
        question_template_tail).data = _
    rw [question_template_head_decomp]
    simp only [data_append, List.append_assoc]

/-- The ASCII-range UTF-8 decoding model inverts UTF-8 encoding on ASCII
texts. -/
theorem asciiDecode_utf8Encode (l : List Char) (h : ∀ c ∈ l, c.toNat < 128) :
    asciiDecode (utf8Encode l) = some l := by
  induction l with
  | nil => rfl
  | cons c cs ih =>
      have hc : c.toNat < 128 := h c (by simp)
      have henc : utf8EncodeChar c = [c.toNat] := by
        unfold utf8EncodeChar
        rw [if_pos hc]
      simp only [utf8Encode, henc, List.cons_append, List.nil_append,
        asciiDecode, hc, if_true]
      rw [ih (fun x hx => h x (by simp [hx]))]
      simp [Char.ofNat_toNat]

/-- C4: for the effective `export_responses`, a string response is
base64-decoded (`decodestring`) and JSON-parsed (`json.loads`), and the
parsed JSON value is returned: for every ASCII document text that parses to
a value `j`, the operation applied to the base64 encoding of that text
returns `j` itself, not the raw base64 string. -/
theorem claim_c4_export_responses_decodes_and_parses (doc : List Char)
    (j : Json) (hascii : ∀ c ∈ doc, c.toNat < 128)
    (hparse : jsonParse doc = some j) :
    export_responses
        (PyVal.str (String.mk (encodestring (utf8Encode doc)))) =
      ExportOutcome.ok j := by
  show (match json_loads
      (decodestring (String.mk (encodestring (utf8Encode doc))).data) with
    | some j => ExportOutcome.ok j
    | Option.none => ExportOutcome.parseError) = ExportOutcome.ok j
  have hdec : decodestring
      (String.mk (encodestring (utf8Encode doc))).data = utf8Encode doc :=
    decodestring_encodestring _ (utf8Encode_lt _)
  rw [hdec]
  unfold json_loads
  rw [asciiDecode_utf8Encode doc hascii]
  simp only [hparse]

/-- Witness for C4: exporting the base64 encoding of the document
`"[1, 2]"` yields the parsed JSON array `[1, 2]`. -/
theorem claim_c4_witness :
    export_responses
        (PyVal.str (String.mk (encodestring (utf8Encode "[1, 2]".data)))) =
      ExportOutcome.ok (Json.arr [Json.num 1, Json.num 2]) :=
  claim_c4_export_responses_decodes_and_parses "[1, 2]".data
    (Json.arr [Json.num 1, Json.num 2]) (by decide) (by rfl)

/-- Counterexample to C6: the empty string uppercases to a non-member of the
enumeration, yet no `ValueError` is raised — a falsy `question_type` is
replaced by the default before the membership test, so resolution yields the
short-free-text code and the request is built and sent. -/
theorem claim_c6_counterexample :
    question_type_lookup (pyUpper "") = Option.none ∧
    resolve_question_type (some "") = Except.ok "S" ∧
    exceptOk
        (add_question_prepare "k" 1 1 "Q" Option.none (some "") Option.none
          0) = true := by
  refine ⟨rfl, rfl, rfl⟩

/-- C6 (amended): any symbolic name whose uppercased form is an enumeration
member resolves to that member's code (in particular any casing of
`list_radio` resolves to `"L"`), and any non-empty name whose uppercased
form is not a member raises `ValueError` before the transport request is
built; an empty name is treated like an absent one and defaults to
`TEXT_SHORT_FREE_TEXT` (`"S"`). -/
theorem claim_c6_amended_question_type_resolution :
    (∀ name : String, pyUpper name = "LIST_RADIO" →
      resolve_question_type (some name) = Except.ok "L") ∧
    (∀ name code, question_type_lookup (pyUpper name) = some code →
      resolve_question_type (some name) = Except.ok code) ∧
    (∀ name, name ≠ "" → question_type_lookup (pyUpper name) = Option.none →
      ∀ sk sid gid q qh m r,
        add_question_prepare sk sid gid q qh (some name) m r =
          Except.error "invalid question type") := by
  refine ⟨?_, ?_, ?_⟩
  · intro name h
    by_cases he : name = ""
    · rw [he] at h
      exact absurd h (by decide)
    · show (match question_type_lookup
          (pyUpper (if name = "" then "TEXT_SHORT_FREE_TEXT" else name)) with
        | some code => Except.ok code
        | Option.none =>
            (Except.error "invalid question type" : Except String String)) =
        Except.ok "L"
      rw [if_neg he, h]
      rfl
  · intro name code h
    by_cases he : name = ""
    · rw [he] at h
      have hnone : question_type_lookup (pyUpper "") = Option.none := rfl
      rw [hnone] at h
      exact Option.noConfusion h
    · show (match question_type_lookup
          (pyUpper (if name = "" then "TEXT_SHORT_FREE_TEXT" else name)) with
        | some code => Except.ok code
        | Option.none =>
            (Except.error "invalid question type" : Except String String)) =
        Except.ok code
      rw [if_neg he, h]
  · intro name hne h sk sid gid q qh m r
    have hres : resolve_question_type (some name) =
        Except.error "invalid question type" := by
      show (match question_type_lookup
          (pyUpper (if name = "" then "TEXT_SHORT_FREE_TEXT" else name)) with
        | some code => Except.ok code
        | Option.none =>
            (Except.error "invalid question type" : Except String String)) =
        Except.error "invalid question type"
      rw [if_neg hne, h]
    unfold add_question_prepare
    rw [hres]

/-- Witness for C6 (amended): the lowercase name `"list_radio"` resolves to
the code `"L"`, and the unknown name `"foo"` raises `ValueError` without a
request being built. -/
theorem claim_c6_witness :
    resolve_question_type (some "list_radio") = Except.ok "L" ∧
    add_question_prepare "k" 1 1 "Q" Option.none (some "foo") Option.none 0 =
      Except.error "invalid question type" :=
  ⟨claim_c6_amended_question_type_resolution.1 "list_radio" (by decide),
   claim_c6_amended_question_type_resolution.2.2 "foo" (by decide) (by decide)
     "k" 1 1 "Q" Option.none Option.none 0⟩

/-- C7: with no explicit question type and no explicit mandatory flag,
the question document `add_question` sends has type code `"S"` (short free
text), mandatory `"N"`, language `"en"`, and a title that is `'q'` followed
by exactly 19 characters of the 36-character alphanumeric alphabet (given
the ID generator's random draw `r` from its `randint` range
`[36^18, 36^19 - 1]`). -/
theorem claim_c7_add_question_defaults (sk : String) (r : Nat)
    (h1 : 36 ^ 18 ≤ r) (h2 : r ≤ 36 ^ 19 - 1) :
    ∃ pq : PreparedRequest,
      add_question_prepare sk 5 2 "Age?" Option.none Option.none Option.none
          r = Except.ok pq ∧
      lookupEntry pq.fields "type" = some (PyVal.str "S") ∧
      lookupEntry pq.fields "mandatory" = some (PyVal.str "N") ∧
      lookupEntry pq.fields "language" = some (PyVal.str "en") ∧
      ∃ t : String,
        lookupEntry pq.fields "title" = some (PyVal.str t) ∧
        t.data.head? = some 'q' ∧ t.length = 20 ∧
        t.data.tail.length = 19 ∧ (∀ c ∈ t.data.tail, c ∈ ALPHABET) := by
  have hpow : 0 < 36 ^ 19 := pow_pos (by omega) _
  have h2' : r < 36 ^ 19 := by omega
  have h18 : (36 : ℕ) ^ (18 + 1) = 36 ^ 19 := rfl
  have hlen : (encodeInt r).length = 19 := by
    have hl := encodeInt_length 18 r h1 (h18 ▸ h2')
    omega
  refine ⟨_, rfl, rfl, rfl, rfl, "q" ++ generate_id r, rfl, rfl, ?_, ?_, ?_⟩
  · show ('q' :: encodeInt r).length = 20
    simp [hlen]
  · show (encodeInt r).length = 19
    exact hlen
  · show ∀ c ∈ encodeInt r, c ∈ ALPHABET
    exact encodeInt_mem r

/-- Witness for C7: the defaults at the concrete draw `36^18`. -/
theorem claim_c7_witness :
    ∃ pq : PreparedRequest,
      add_question_prepare "k" 5 2 "Age?" Option.none Option.none Option.none
          (36 ^ 18) = Except.ok pq ∧
      lookupEntry pq.fields "type" = some (PyVal.str "S") ∧
      lookupEntry pq.fields "mandatory" = some (PyVal.str "N") ∧
      lookupEntry pq.fields "language" = some (PyVal.str "en") ∧
      ∃ t : String,
        lookupEntry pq.fields "title" = some (PyVal.str t) ∧
        t.data.head? = some 'q' ∧ t.length = 20 ∧
        t.data.tail.length = 19 ∧ (∀ c ∈ t.data.tail, c ∈ ALPHABET) :=
  claim_c7_add_question_defaults "k" (36 ^ 18) (le_refl _) (by norm_num)
